import Mathlib

/-!
Verification of the reward/goal core of `ratinabox/contribs/TaskEnvironment.py`.

The Python source is shallowly embedded: machine floats are modelled as
rationals (ℚ), Python `None`-able numbers as `Option ℚ`, fallible code as
`Except PyErr`, and stateful methods as functions returning the updated value.
The append-only `history` diagnostic dict of `Reward` is not modelled: it is
written by `Reward.update` but never read by any code in the file.
-/

namespace TaskEnv

/-- Python exceptions that the embedded code can raise. -/
inductive PyErr where
  | nameError
  | valueError
  | indexError
  | keyError
  | attributeError
  | notImplementedError
  deriving DecidableEq, Repr

/-- Total list accessor with an explicit default (used in theorem statements). -/
def nthD {α : Type} (l : List α) (i : ℕ) (d : α) : α :=
  match l.get? i with
  | some a => a
  | none => d

/-- `Reward` (TaskEnvironment.py, `class Reward`).  Fields are the attributes
set by `__init__` that the reward dynamics read:
`state`, `dt`, `expire_clock`, `decay` (already resolved to a function, as
`__init__` does from a preset name or a custom callable), `external_drive`
(a nullary Python function, modelled by the value it returns; `None` when not
configured) and `external_drive_strength`. -/
structure Reward where
  state : ℚ
  dt : ℚ
  expire_clock : ℚ
  decay : ℚ → ℚ
  external_drive : Option ℚ
  external_drive_strength : ℚ

/-- `Reward.__init__`: the `expire_clock` argument is kept only when it is a
number (`isinstance(expire_clock, (int, float))`); `None` (and any other
non-numeric value) is replaced by `dt`.  The decay argument is passed already
resolved to a function, as `__init__` does via `decay_preset`/custom. -/
def Reward.ofInit (init_state : ℚ) (dt : ℚ) (expire_clock : Option ℚ)
    (decay : ℚ → ℚ) (external_drive : Option ℚ)
    (external_drive_strength : ℚ) : Reward :=
  { state := init_state
    dt := dt
    expire_clock := expire_clock.getD dt
    decay := decay
    external_drive := external_drive
    external_drive_strength := external_drive_strength }

/-- `Reward.get_delta(self, state=None)`. -/
def Reward.get_delta (r : Reward) (state? : Option ℚ) : ℚ :=
  let state := state?.getD r.state
  match r.external_drive with
  | some target_gradient =>
      r.external_drive_strength * (target_gradient - state) - r.decay state
  | none => -(r.decay state)

/-- `Reward.update(self)`: `state += get_delta() * dt`, `expire_clock -= dt`,
returns `not (expire_clock <= 0)` (the decremented clock). -/
def Reward.update (r : Reward) : Reward × Bool :=
  let state := r.state + r.get_delta none * r.dt
  let expire_clock := r.expire_clock - r.dt
  ({ r with state := state, expire_clock := expire_clock },
   !(decide (expire_clock ≤ 0)))

/-- The spec's drive term (§4.1): `drive_strength * (external_drive() - state)`
when an external drive function is configured, else `0`.  Stated from the
spec's words, to be compared with `Reward.get_delta` from the source. -/
def specDriveTerm (r : Reward) : ℚ :=
  match r.external_drive with
  | some target => r.external_drive_strength * (target - r.state)
  | none => 0

/-- `RewardCache.update(self)` runs the Python loop

    for reward in self.cache:
        reward_still_active = reward.update()
        if not reward_still_active:
            self.cache.remove(reward)

CPython iterates by an internal index that advances once per iteration, while
`remove` deletes the iterated object in place (entries are distinct objects,
each `append` deep-copies, so `remove` deletes exactly the current index and
shifts the tail left) — so the entry after a removed one is skipped.  The loop
runs at most `cache.length` iterations; `fuel` (initialised to the original
length) counts the remaining iterations, and the `fuel = 0` branch is never
reached before the index runs off the end of the list. -/
def sweepFrom : ℕ → ℕ → List Reward → List Reward
  | 0, _, cache => cache
  | fuel + 1, i, cache =>
      match cache.get? i with
      | none => cache
      | some r =>
          let u := Reward.update r
          let cache' := cache.set i u.1
          if u.2 then sweepFrom fuel (i + 1) cache'
          else sweepFrom fuel (i + 1) (cache'.eraseIdx i)

/-- `RewardCache.update`: one eviction sweep over the whole cache. -/
def RewardCache.update (cache : List Reward) : List Reward :=
  sweepFrom cache.length 0 cache

/-- `RewardCache.get_total(self)`: `sum([reward.state for reward in self.cache])`. -/
def RewardCache.get_total (cache : List Reward) : ℚ :=
  (cache.map (fun r => r.state)).sum

/-- A reward with `expire_clock = dt` (one tick left), no drive, zero decay:
concrete input for the eviction-sweep claims. -/
def rOneTick : Reward :=
  { state := 0, dt := 1, expire_clock := 1, decay := fun _ => 0
    external_drive := none, external_drive_strength := 1 }

/-- `np.where(bools)[0]` starting from position `i`: the indices at which the
boolean array is `True`, in increasing order. -/
def npWhereFrom : ℕ → List Bool → List ℕ
  | _, [] => []
  | i, b :: bs =>
      if b then i :: npWhereFrom (i + 1) bs else npWhereFrom (i + 1) bs

/-- `np.where(bools)[0]`. -/
def npWhere (bs : List Bool) : List ℕ := npWhereFrom 0 bs

/-- Python list indexing `l[n]` with an `int` index: negative indices count
from the end, out-of-range raises `IndexError`. -/
def pyGet {α : Type} (l : List α) (n : ℤ) : Except PyErr α :=
  let m := if n < 0 then n + l.length else n
  if 0 ≤ m then
    match l.get? m.toNat with
    | some a => .ok a
    | none => .error .indexError
  else .error .indexError

/-- Truthiness of the numpy comparison `solution_agents == i` used by the
sequential branch of `GoalCache.check`: `solution_agents` is the integer
array returned by `SpatialGoal.check` (indices *within the passed agent
subset*).  An empty array is falsy, a one-element array has the truth value
of its single comparison, and a larger array raises
(`ValueError: ambiguous truth value`). -/
def npTruthyEq (sol : List ℕ) (i : ℕ) : Except PyErr Bool :=
  match sol with
  | [] => .ok false
  | [a] => .ok (decide (a = i))
  | _ => .error .valueError

/-- `SpatialGoal` (TaskEnvironment.py): `goal_pos`, `radius` and the `reward`
template inherited from `Goal`.  Positions are one-dimensional in the model;
the environment-aware distance function (`ratinabox.Environment`, an external
collaborator per the spec) is passed in as `dist`. -/
structure SpatialGoal where
  goal_pos : ℚ
  radius : ℚ
  reward : Reward

/-- `SpatialGoal.check(agents)`: per agent, `_in_goal_radius` tests
`distance(pos, goal_pos) < radius` (strict); `rewarded_agents` is
`np.where(...)[0]`, and `rewards = [self.reward] * len(rewarded_agents)` — the
same template value for every satisfying agent. -/
def SpatialGoal.check (dist : ℚ → ℚ → ℚ) (g : SpatialGoal)
    (agents : List ℚ) : List Reward × List ℕ :=
  let agents_reached_goal :=
    agents.map (fun pos => if dist pos g.goal_pos < g.radius then true else false)
  let rewarded_agents := npWhere agents_reached_goal
  (List.replicate rewarded_agents.length g.reward, rewarded_agents)

/-- `GoalCache` (TaskEnvironment.py): ordered goals, `mode`, `agentmode`, and
the per-agent progress dict `_if_sequential__last_acheived` (one entry per
agent known at construction, each initialised to `-1`), modelled as a list
indexed by agent. -/
structure GoalCache where
  goals : List SpatialGoal
  mode : String
  agentmode : String
  lastAchieved : List ℤ

/-- `GoalCache._handle_agentmode`: dispatches on `agentmode`.
`"interact"` calls `_agentmode_is_interact`, whose body is `pass` (a no-op —
the goal is never consumed, despite the method's docstring); `"parallel"`
calls `self._agentmode_is_parallel`, a method that does not exist
(`AttributeError`); any other value does nothing. -/
def GoalCache.handle_agentmode (agentmode : String) : Except PyErr Unit :=
  if agentmode = "interact" then .ok ()
  else if agentmode = "parallel" then .error .attributeError
  else .ok ()

/-- The `for i, agent in enumerate(self.env.Agents)` loop of the sequential
branch of `GoalCache.check`: look up the agent's cursor, check only the goal
at `cursor + 1` restricted to that one agent, then test
`solution_agents == i` (numpy truthiness); on success append the reward list
and the agent index and advance the cursor; finally `_handle_agentmode` runs
for every agent. -/
def GoalCache.seqLoop (dist : ℚ → ℚ → ℚ) (goals : List SpatialGoal)
    (agentmode : String) :
    List (ℕ × ℚ) → List (List Reward) → List ℕ → List ℤ →
    Except PyErr (List (List Reward) × List ℕ × List ℤ)
  | [], rewards, credited, last => .ok (rewards, credited, last)
  | (i, pos) :: rest, rewards, credited, last =>
      match last.get? i with
      | none => .error .keyError
      | some li =>
          match pyGet goals (li + 1) with
          | .error e => .error e
          | .ok goal =>
              let res := SpatialGoal.check dist goal [pos]
              match npTruthyEq res.2 i with
              | .error e => .error e
              | .ok cond =>
                  let st :=
                    if cond then
                      (rewards ++ [res.1], credited ++ [i], last.set i (li + 1))
                    else (rewards, credited, last)
                  match GoalCache.handle_agentmode agentmode with
                  | .error e => .error e
                  | .ok _ =>
                      GoalCache.seqLoop dist goals agentmode rest st.1 st.2.1 st.2.2

/-- `GoalCache.check(remove_finished=True)`.  The sequential branch runs
`seqLoop` over all agents.  The nonsequential branch computes
`zip(*[goal.check() for goal in self.goals])` — unpacking that `zip` raises
`ValueError` when the goal list is empty — and then executes
`return rewards, agents`, where `agents` is bound only in the sequential
branch, so a `NameError` is raised.  An unknown mode raises `ValueError`. -/
def GoalCache.check (dist : ℚ → ℚ → ℚ) (gc : GoalCache) (agents : List ℚ)
    (remove_finished : Bool) :
    Except PyErr (List (List Reward) × List ℕ × GoalCache) :=
  let _ := remove_finished
  if gc.mode = "sequential" then
    match GoalCache.seqLoop dist gc.goals gc.agentmode agents.enum [] []
        gc.lastAchieved with
    | .error e => .error e
    | .ok res => .ok (res.1, res.2.1, { gc with lastAchieved := res.2.2 })
  else if gc.mode = "nonsequential" then
    if gc.goals.isEmpty then .error .valueError
    else
      let _ := gc.goals.map (fun g => SpatialGoal.check dist g agents)
      match GoalCache.handle_agentmode gc.agentmode with
      | .error e => .error e
      | .ok _ => .error .nameError
  else .error .valueError

/-- A concrete geometry for counterexamples and witnesses: one-dimensional
absolute distance.  (The spec treats the obstacle-aware metric as an external
collaborator; general theorems quantify over `dist`.) -/
def distAbs (x y : ℚ) : ℚ := |x - y|

/-- A concrete reward template (state 1, dt 1, two ticks of lifetime). -/
def rTemplate : Reward :=
  { state := 1, dt := 1, expire_clock := 2, decay := fun _ => 0
    external_drive := none, external_drive_strength := 1 }

/-- A spatial goal at the origin with capture radius 1. -/
def gOrigin : SpatialGoal := { goal_pos := 0, radius := 1, reward := rTemplate }

/-- Sequential cache in `"interact"` agent mode, one goal, one agent. -/
def gcInteract : GoalCache :=
  { goals := [gOrigin], mode := "sequential", agentmode := "interact"
    lastAchieved := [-1] }

/-- Sequential cache in `"interact"` agent mode, one goal, two agents. -/
def gcTwoAgents : GoalCache :=
  { goals := [gOrigin], mode := "sequential", agentmode := "interact"
    lastAchieved := [-1, -1] }

/-- Nonsequential cache with one goal. -/
def gcNonseq : GoalCache :=
  { goals := [gOrigin], mode := "nonsequential", agentmode := "interact"
    lastAchieved := [-1] }

/-- Nonsequential cache with no goals. -/
def gcNonseqEmpty : GoalCache :=
  { goals := [], mode := "nonsequential", agentmode := "interact"
    lastAchieved := [-1] }

/-- In-place update of the element at one index (other entries untouched);
used to model mutation of a single Python object on a heap and deposits into
one agent's reward cache. -/
def modifyAt {α : Type} : List α → ℕ → (α → α) → List α
  | [], _, _ => []
  | a :: l, 0, f => f a :: l
  | a :: l, n + 1, f => a :: modifyAt l n f

/-- Object-identity model for C7: a heap of reward objects, addressed by
allocation index.  `RVal` carries the mutable scalar attributes of a `Reward`
(`state`, `expire_clock`); the configuration fields behave identically under
`copy`, and the `history` dict (shared, never read) is not modelled. -/
structure RVal where
  state : ℚ
  expire_clock : ℚ
  deriving DecidableEq, Repr

/-- `SpatialGoal.check` on the heap model: `rewards = [self.reward] *
len(rewarded_agents)` repeats the very same object reference `rewardRef` once
per satisfying agent — no copy is made here. -/
def SpatialGoal.checkRefs (dist : ℚ → ℚ → ℚ) (rewardRef : ℕ)
    (goal_pos radius : ℚ) (agents : List ℚ) : List ℕ × List ℕ :=
  let agents_reached_goal :=
    agents.map (fun pos => if dist pos goal_pos < radius then true else false)
  let rewarded_agents := npWhere agents_reached_goal
  (List.replicate rewarded_agents.length rewardRef, rewarded_agents)

/-- `RewardCache.append(reward, copymode=True)` on the heap model:
`copy(reward)` allocates a fresh object (reference `heap.length`) holding the
same scalar attributes, and the cache stores the fresh reference. -/
def RewardCache.appendRef (heap : List RVal) (cache : List ℕ) (r : ℕ) :
    List RVal × List ℕ :=
  (heap ++ [nthD heap r { state := 0, expire_clock := 0 }],
   cache ++ [heap.length])

/-- `TaskEnvironment.add_agents`: the dt guard is
`if not ([agent.dt == self.dt for agent in agents])`.  A list comprehension
is truthy whenever it is non-empty, regardless of its boolean contents, so
`NotImplementedError` is raised only when `agents` is empty; otherwise every
agent is enlisted.  Agents are modelled by their `dt`; the function returns
the environment's enlarged agent list. -/
def add_agents (env_dt : ℚ) (current : List ℚ) (agents : List ℚ) :
    Except PyErr (List ℚ) :=
  if (agents.map (fun d => decide (d = env_dt))).isEmpty then
    .error .notImplementedError
  else .ok (current ++ agents)

/-- The deposit loop of `_is_terminal_state`:
`for reward, agent in zip(rewards, agents):
self.reward_caches[agent].append(reward)` — `append` (with its default
`copymode=True`) deep-copies the reward, which in the value model is the
value itself. -/
def depositAll : List (Reward × ℕ) → List (List Reward) → List (List Reward)
  | [], caches => caches
  | (r, a) :: rest, caches =>
      depositAll rest (modifyAt caches a (fun c => c ++ [r]))

/-- Modelled from the spec: `GoalCache.check_and_remove_satisfied`, called by
`SpatialGoalEnvironment._is_terminal_state` but defined nowhere in the
repository.  Per spec sections 4.4 and 4.5: one resolution pass calls each
goal's `check` on all agents in cache order; every satisfying agent is paired
with that goal's reward; a satisfied goal is removed from the cache (shared
consumption); the parallel reward/agent pairs and the surviving goals are
returned. -/
def checkAndRemoveSatisfied (dist : ℚ → ℚ → ℚ) (agents : List ℚ)
    (goals : List SpatialGoal) : List (Reward × ℕ) × List SpatialGoal :=
  let results := goals.map (fun g => (g, SpatialGoal.check dist g agents))
  (results.flatMap (fun p => p.2.2.map (fun i => (p.1.reward, i))),
   (results.filter (fun p => p.2.2.isEmpty)).map (fun p => p.1))

/-- `SpatialGoalEnvironment` state: clock, episode bookkeeping
(`episodes` dict), agent positions, per-agent reward caches, the registered
candidate goals (`possible_goals`), the current goal cache and `n_goals`.
Rendering state and the (default-off) `teleport_on_reset` flag are omitted. -/
structure SGEnv where
  t : ℚ
  dt : ℚ
  episode : ℕ
  episodes_start : List ℚ
  episodes_end : List ℚ
  episodes_duration : List ℚ
  agents : List ℚ
  reward_caches : List (List Reward)
  possible_goals : List SpatialGoal
  goal_cache : List SpatialGoal
  n_goals : ℕ

/-- `TaskEnvironment._current_episode_start`: `0` when no episode has
started, else `episodes['end'][-1] + dt`.  (At every call site `end` is
non-empty whenever `start` is, so the default of `getLastD` is
unreachable.) -/
def SGEnv.current_episode_start (e : SGEnv) : ℚ :=
  if e.episodes_start.isEmpty then 0 else e.episodes_end.getLastD 0 + e.dt

/-- `TaskEnvironment.write_start_episode` (the `episodes['episode']` counter
column is omitted). -/
def SGEnv.write_start_episode (e : SGEnv) : SGEnv :=
  { e with episodes_start := e.episodes_start ++ [e.current_episode_start] }

/-- `TaskEnvironment.write_end_episode`. -/
def SGEnv.write_end_episode (e : SGEnv) : SGEnv :=
  { e with
    episodes_end := e.episodes_end ++ [e.t]
    episodes_duration :=
      e.episodes_duration ++ [e.t - e.episodes_start.getLastD 0] }

/-- `TaskEnvironment.reset`: close the previous episode record (if any),
increment the episode counter, open a new record.  Render-cache clearing and
the disabled-by-default agent teleport are omitted. -/
def SGEnv.reset_base (e : SGEnv) : SGEnv :=
  let e1 := if e.episodes_start.isEmpty then e else e.write_end_episode
  SGEnv.write_start_episode { e1 with episode := e1.episode + 1 }

/-- `GoalCache.find(goal)`: first cache entry structurally equal to the
request.  `SpatialGoal.__eq__` against a position compares
`np.all(self.goal_pos == np.array(other))`; a miss returns Python `None`. -/
def GoalCache.find (goals : List SpatialGoal) (loc : ℚ) : Option SpatialGoal :=
  goals.find? (fun cache_goal => decide (cache_goal.goal_pos = loc))

/-- The `goal_locations` loop of `SpatialGoalEnvironment.reset`: the goal
cache is cleared *before* the loop, and each location is looked up with
`self.goal_cache.find` — i.e. in the cache being rebuilt (`acc`), not in
`possible_goals`; a miss raises
`ValueError("goal_locations must be a subset of possible_goal_pos")`. -/
def SGEnv.resetLoop : List ℚ → List SpatialGoal → Except PyErr (List SpatialGoal)
  | [], acc => .ok acc
  | loc :: rest, acc =>
      match GoalCache.find acc loc with
      | some g => SGEnv.resetLoop rest (acc ++ [g])
      | none => .error .valueError

/-- `SpatialGoalEnvironment.reset(goal_locations, n_objectives)`.  The random
draws of `_propose_spatial_goal` (external randomness, `np.random.choice`
over `possible_goals`) are supplied by the caller as `proposed`; the
no-locations branch fills the cache with the first `ng` proposals. -/
def SGEnv.reset (e : SGEnv) (proposed : List SpatialGoal)
    (goal_locations : Option (List ℚ)) (n_objectives : Option ℕ) :
    Except PyErr SGEnv :=
  let e1 := SGEnv.reset_base e
  match goal_locations with
  | some locs =>
      match SGEnv.resetLoop locs [] with
      | .error er => .error er
      | .ok gs => .ok { e1 with goal_cache := gs }
  | none =>
      let ng := n_objectives.getD e.n_goals
      .ok { e1 with goal_cache := proposed.take ng }

/-- `reset()` as invoked with no arguments from `update` (the
`goal_locations = None` branch, which cannot raise). -/
def SGEnv.resetAuto (e : SGEnv) (proposed : List SpatialGoal) : SGEnv :=
  { SGEnv.reset_base e with goal_cache := proposed.take e.n_goals }

/-- `SpatialGoalEnvironment._is_terminal_state`: one resolution pass, deposit
every produced reward into the satisfying agent's cache, report whether no
goals remain. -/
def SGEnv.is_terminal_state (dist : ℚ → ℚ → ℚ) (e : SGEnv) : SGEnv × Bool :=
  let res := checkAndRemoveSatisfied dist e.agents e.goal_cache
  ({ e with
      reward_caches := depositAll res.1 e.reward_caches
      goal_cache := res.2 },
   res.2.isEmpty)

/-- `SpatialGoalEnvironment.update`: advance the clock by `dt`
(`TaskEnvironment.update`), then run the terminal check (resolution +
deposit) and reset if the episode ended. -/
def SGEnv.update_env (dist : ℚ → ℚ → ℚ) (proposed : List SpatialGoal)
    (e : SGEnv) : SGEnv :=
  let e1 := { e with t := e.t + e.dt }
  let pr := SGEnv.is_terminal_state dist e1
  if pr.2 then SGEnv.resetAuto pr.1 proposed else pr.1

/-- The gym tuple returned by `step` (the always-`False` truncation flag and
the `info` dict are omitted), together with the post-step environment. -/
structure StepResult where
  env : SGEnv
  observation : List ℚ
  reward : List ℚ
  terminated : Bool

/-- The action-application loop of `step`:
`for (agent, action) in zip(self.Agents, actions.values()): agent.update(...)`.
`agentUpd` is the external locomotion collaborator's `advance(action)`
(modelled from the spec as a parameter: new position from `dt`, the action
and the old position). -/
def postActionAgents (agentUpd : ℚ → ℚ → ℚ → ℚ) (e : SGEnv)
    (actions : List ℚ) : List ℚ :=
  (e.agents.zip actions).map (fun p => agentUpd e.dt p.2 p.1)

/-- `TaskEnvironment.step(actions)` (with `SpatialGoalEnvironment`'s
`update`/`_is_terminal_state`): (1) apply actions, (2) age every reward
cache, (3) `self.update(...)` — clock, resolution pass with deposit, and
reset on termination — then build the return tuple left to right:
observations, per-agent `get_total` rewards, and the terminal flag, whose
evaluation calls `_is_terminal_state` a second time. -/
def SGEnv.step (agentUpd : ℚ → ℚ → ℚ → ℚ) (dist : ℚ → ℚ → ℚ) (e : SGEnv)
    (actions : List ℚ) (proposed : List SpatialGoal) : StepResult :=
  let e1 := { e with agents := postActionAgents agentUpd e actions }
  let e2 := { e1 with reward_caches := e1.reward_caches.map RewardCache.update }
  let e3 := SGEnv.update_env dist proposed e2
  let obs := e3.agents
  let rew := e3.reward_caches.map RewardCache.get_total
  let pr := SGEnv.is_terminal_state dist e3
  { env := pr.1, observation := obs, reward := rew, terminated := pr.2 }

/-- The caches after step's aging pass (step 2), before any deposit. -/
def agedCaches (e : SGEnv) : List (List Reward) :=
  e.reward_caches.map RewardCache.update

/-- The reward/agent pairs produced by the resolution pass of one `step`:
computed on the post-action agent positions and the pre-step goal cache. -/
def stepDeposits (agentUpd : ℚ → ℚ → ℚ → ℚ) (dist : ℚ → ℚ → ℚ) (e : SGEnv)
    (actions : List ℚ) : List (Reward × ℕ) :=
  (checkAndRemoveSatisfied dist (postActionAgents agentUpd e actions)
    e.goal_cache).1

/-- Sum of the (un-aged) template states deposited to agent `i`. -/
def depositedSum (deps : List (Reward × ℕ)) (i : ℕ) : ℚ :=
  (deps.map (fun p => if p.2 = i then p.1.state else 0)).sum

/-- A live pre-existing reward (state 2, far from expiring). -/
def rOld : Reward :=
  { state := 2, dt := 1, expire_clock := 10, decay := fun _ => 0
    external_drive := none, external_drive_strength := 1 }

/-- Concrete environment for the C6 witness: one agent standing on the one
goal, one pre-existing reward of state 2 in its cache. -/
def e6 : SGEnv :=
  { t := 0, dt := 1, episode := 0, episodes_start := [], episodes_end := []
    episodes_duration := [], agents := [0], reward_caches := [[rOld]]
    possible_goals := [gOrigin], goal_cache := [gOrigin], n_goals := 1 }

/-- Modelled from the spec: a simple locomotion collaborator — drift by
`action * dt`. -/
def agentUpdDrift (dt action pos : ℚ) : ℚ := pos + action * dt

/-- Concrete environment for C8: one registered candidate goal at the
origin, which is also the current (previous-episode) goal. -/
def e8 : SGEnv :=
  { t := 0, dt := 1, episode := 1, episodes_start := [0], episodes_end := []
    episodes_duration := [], agents := [0], reward_caches := [[]]
    possible_goals := [gOrigin], goal_cache := [gOrigin], n_goals := 1 }

end TaskEnv

namespace TaskEnv

/-- C1: one `Reward.update()` call changes `state` by exactly
`(drive_term - decay(state)) * dt` (drive term per the spec's formula, `0`
when no external drive is configured), decrements `expire_clock` by exactly
`dt`, and returns `true` iff the decremented `expire_clock` is strictly
positive. -/
theorem c1_reward_update_dynamics (r : Reward) :
    (r.update).1.state = r.state + (specDriveTerm r - r.decay r.state) * r.dt
    ∧ (r.update).1.expire_clock = r.expire_clock - r.dt
    ∧ ((r.update).2 = true ↔ 0 < (r.update).1.expire_clock) := by
  refine ⟨?_, rfl, ?_⟩
  · rcases h : r.external_drive with _ | t <;>
      simp [Reward.update, Reward.get_delta, specDriveTerm, h]
  · simp [Reward.update, not_le]

/-- C2 (failing input): a cache holding two rewards that both have
`expire_clock = 1 * dt`.  The sweep removes the first and *skips* the second
(it is neither updated nor evicted), so after one `update()` sweep the second
reward — whose `expire_clock` equals `k * dt` with `k = 1` — is still in the
cache; only a second sweep evicts it. -/
theorem c2_sweep_skips_after_removal :
    RewardCache.update [rOneTick, rOneTick] = [rOneTick]
    ∧ RewardCache.update [rOneTick] = [] := by
  constructor <;>
    norm_num [RewardCache.update, sweepFrom, Reward.update, Reward.get_delta,
      rOneTick]

/-- C10: constructing a `Reward` with `expire_clock = None` sets
`expire_clock` to `dt`; its first `update()` returns `false`, and a ledger
holding just that reward evicts it in a single sweep. -/
theorem c10_none_expire_clock_one_tick (s dt : ℚ) (decay : ℚ → ℚ)
    (drive : Option ℚ) (strength : ℚ) :
    (Reward.ofInit s dt none decay drive strength).expire_clock = dt
    ∧ ((Reward.ofInit s dt none decay drive strength).update).2 = false
    ∧ RewardCache.update [Reward.ofInit s dt none decay drive strength] = [] := by
  refine ⟨rfl, ?_, ?_⟩
  · simp [Reward.ofInit, Reward.update]
  · simp [Reward.ofInit, Reward.update, RewardCache.update, sweepFrom]

/-- C3 (failing input): sequential cache, `agentmode = "interact"`, one goal
`gOrigin`, one agent standing on it, `remove_finished = true`.  The agent is
credited, but `_agentmode_is_interact` is `pass`, so the goal stays in the
cache; on the following tick the goal is still present and the sequential
check raises `IndexError` (cursor past the end) instead of finding it
removed. -/
theorem c3_interact_never_removes_goal :
    GoalCache.check distAbs gcInteract [0] true
      = .ok ([[rTemplate]], [0], { gcInteract with lastAchieved := [0] })
    ∧ ({ gcInteract with lastAchieved := [0] } : GoalCache).goals = [gOrigin]
    ∧ GoalCache.check distAbs { gcInteract with lastAchieved := [0] } [0] true
      = .error .indexError := by
  refine ⟨?_, rfl, ?_⟩ <;>
    norm_num [GoalCache.check, GoalCache.seqLoop, GoalCache.handle_agentmode,
      SpatialGoal.check, npWhere, npWhereFrom, npTruthyEq, pyGet,
      gcInteract, gOrigin, distAbs, List.enum]

/-- C4 (failing input): sequential cache with two agents; agent 1 stands
inside the capture radius of the goal at its cursor position (conjunct 3),
yet the check credits nothing and leaves both cursors at `-1`: the code
compares the *subset-local* index array `np.where(...)[0]` (always `[0]` for
a one-agent check) with the *global* agent index `i`, which is falsy for
every `i ≥ 1`. -/
theorem c4_sequential_skips_later_agents :
    GoalCache.check distAbs gcTwoAgents [5, 0] true
      = .ok ([], [], gcTwoAgents)
    ∧ (SpatialGoal.check distAbs gOrigin [0]).2 = [0]
    ∧ distAbs 0 gOrigin.goal_pos < gOrigin.radius := by
  refine ⟨?_, ?_, ?_⟩ <;>
    norm_num [GoalCache.check, GoalCache.seqLoop, GoalCache.handle_agentmode,
      SpatialGoal.check, npWhere, npWhereFrom, npTruthyEq, pyGet,
      gcTwoAgents, gOrigin, distAbs, List.enum]

/-- C5 (failing input): the nonsequential branch never returns a pair of
parallel sequences: with goals in the cache `return rewards, agents` hits the
unbound name `agents` (`NameError`); with an empty cache the unpacking of
`zip(*[])` raises `ValueError`. -/
theorem c5_nonsequential_raises :
    GoalCache.check distAbs gcNonseq [0] true = .error .nameError
    ∧ GoalCache.check distAbs gcNonseqEmpty [0] true = .error .valueError := by
  constructor <;> rfl

theorem nthD_def {α : Type} (l : List α) (i : ℕ) (d : α) :
    nthD l i d = (l[i]?).getD d := by
  unfold nthD
  rw [List.get?_eq_getElem?]
  cases l[i]? <;> rfl

theorem nthD_append_lt {α : Type} (l l' : List α) (i : ℕ) (d : α)
    (h : i < l.length) : nthD (l ++ l') i d = nthD l i d := by
  simp [nthD_def, List.getElem?_append_left h]

theorem nthD_append_len {α : Type} (l : List α) (a d : α) :
    nthD (l ++ [a]) l.length d = a := by
  simp [nthD_def, List.getElem?_concat_length]

theorem length_modifyAt {α : Type} (l : List α) (n : ℕ) (f : α → α) :
    (modifyAt l n f).length = l.length := by
  induction l generalizing n with
  | nil => rfl
  | cons a l ih => cases n <;> simp [modifyAt, ih]

theorem getElem?_modifyAt {α : Type} (l : List α) (n i : ℕ) (f : α → α) :
    (modifyAt l n f)[i]? = if i = n then (l[i]?).map f else l[i]? := by
  induction l generalizing n i with
  | nil => simp [modifyAt]
  | cons a l ih =>
      cases n with
      | zero => cases i <;> simp [modifyAt]
      | succ n => cases i <;> simp [modifyAt, ih]

theorem nthD_modifyAt_ne {α : Type} (l : List α) (n i : ℕ) (f : α → α) (d : α)
    (h : i ≠ n) : nthD (modifyAt l n f) i d = nthD l i d := by
  simp [nthD_def, getElem?_modifyAt, h]

/-- C7 (counterexample): with two agents standing on the goal, the reward
instances that `SpatialGoal.check` produces are one and the same object —
the list of reward references is `[0, 0]`, both entries being the goal's own
`reward` template (reference `0`), not distinct independent copies. -/
theorem c7_check_returns_aliases :
    SpatialGoal.checkRefs distAbs 0 0 1 [0, 0] = ([0, 0], [0, 1]) := by
  norm_num [SpatialGoal.checkRefs, npWhere, npWhereFrom, distAbs,
    List.replicate]

/-- C7 (amended): `SpatialGoal.check` returns the template itself, aliased,
once per satisfying agent; the independent copy is made when the reward is
deposited into a ledger by `RewardCache.append` (`copymode=True`).  Depositing
the same template into two ledgers allocates two fresh objects, distinct from
each other and from the template, each holding the template's scalar value,
and mutating one of them changes neither the other nor the template. -/
theorem c7_copies_made_at_append (heap : List RVal) (cacheA cacheB : List ℕ)
    (t : ℕ) (ht : t < heap.length) :
    (RewardCache.appendRef heap cacheA t).2 = cacheA ++ [heap.length]
    ∧ (RewardCache.appendRef (RewardCache.appendRef heap cacheA t).1
        cacheB t).2 = cacheB ++ [heap.length + 1]
    ∧ heap.length ≠ t ∧ heap.length + 1 ≠ t ∧ heap.length ≠ heap.length + 1
    ∧ nthD (RewardCache.appendRef (RewardCache.appendRef heap cacheA t).1
        cacheB t).1 heap.length { state := 0, expire_clock := 0 }
      = nthD heap t { state := 0, expire_clock := 0 }
    ∧ nthD (RewardCache.appendRef (RewardCache.appendRef heap cacheA t).1
        cacheB t).1 (heap.length + 1) { state := 0, expire_clock := 0 }
      = nthD heap t { state := 0, expire_clock := 0 }
    ∧ ∀ f : RVal → RVal,
        nthD (modifyAt (RewardCache.appendRef
            (RewardCache.appendRef heap cacheA t).1 cacheB t).1
            heap.length f) (heap.length + 1) { state := 0, expire_clock := 0 }
          = nthD (RewardCache.appendRef (RewardCache.appendRef heap cacheA t).1
              cacheB t).1 (heap.length + 1) { state := 0, expire_clock := 0 }
        ∧ nthD (modifyAt (RewardCache.appendRef
            (RewardCache.appendRef heap cacheA t).1 cacheB t).1
            heap.length f) t { state := 0, expire_clock := 0 }
          = nthD (RewardCache.appendRef (RewardCache.appendRef heap cacheA t).1
              cacheB t).1 t { state := 0, expire_clock := 0 } := by
  have hlt : t < (heap ++ [nthD heap t { state := 0, expire_clock := 0 }]).length := by
    simp
    omega
  refine ⟨rfl, ?_, by omega, by omega, by omega, ?_, ?_, ?_⟩
  · simp [RewardCache.appendRef]
  · simp only [RewardCache.appendRef]
    rw [nthD_append_lt _ _ _ _ (by simp), nthD_append_len]
  · simp only [RewardCache.appendRef]
    have hlen : (heap ++ [nthD heap t { state := 0, expire_clock := 0 }]).length
        = heap.length + 1 := by simp
    rw [← hlen, nthD_append_len, nthD_append_lt _ _ _ _ (by omega)]
  · intro f
    constructor
    · exact nthD_modifyAt_ne _ _ _ _ _ (by omega)
    · exact nthD_modifyAt_ne _ _ _ _ _ (by omega)

/-- C7 witness: the amended theorem applied to the concrete heap holding one
template object with state 5 and one tick of lifetime. -/
theorem c7_copies_made_at_append_witness :
    (0 < ([{ state := 5, expire_clock := 1 }] : List RVal).length)
    ∧ ((RewardCache.appendRef [{ state := 5, expire_clock := 1 }] [] 0).2
        = [] ++ [([{ state := 5, expire_clock := 1 }] : List RVal).length]
    ∧ (RewardCache.appendRef (RewardCache.appendRef
        [{ state := 5, expire_clock := 1 }] [] 0).1 [] 0).2
        = [] ++ [([{ state := 5, expire_clock := 1 }] : List RVal).length + 1]
    ∧ ([{ state := 5, expire_clock := 1 }] : List RVal).length ≠ 0
    ∧ ([{ state := 5, expire_clock := 1 }] : List RVal).length + 1 ≠ 0
    ∧ ([{ state := 5, expire_clock := 1 }] : List RVal).length
        ≠ ([{ state := 5, expire_clock := 1 }] : List RVal).length + 1
    ∧ nthD (RewardCache.appendRef (RewardCache.appendRef
        [{ state := 5, expire_clock := 1 }] [] 0).1 [] 0).1
        ([{ state := 5, expire_clock := 1 }] : List RVal).length
        { state := 0, expire_clock := 0 }
      = nthD [{ state := 5, expire_clock := 1 }] 0 { state := 0, expire_clock := 0 }
    ∧ nthD (RewardCache.appendRef (RewardCache.appendRef
        [{ state := 5, expire_clock := 1 }] [] 0).1 [] 0).1
        (([{ state := 5, expire_clock := 1 }] : List RVal).length + 1)
        { state := 0, expire_clock := 0 }
      = nthD [{ state := 5, expire_clock := 1 }] 0 { state := 0, expire_clock := 0 }
    ∧ ∀ f : RVal → RVal,
        nthD (modifyAt (RewardCache.appendRef (RewardCache.appendRef
            [{ state := 5, expire_clock := 1 }] [] 0).1 [] 0).1
            ([{ state := 5, expire_clock := 1 }] : List RVal).length f)
            (([{ state := 5, expire_clock := 1 }] : List RVal).length + 1)
            { state := 0, expire_clock := 0 }
          = nthD (RewardCache.appendRef (RewardCache.appendRef
              [{ state := 5, expire_clock := 1 }] [] 0).1 [] 0).1
              (([{ state := 5, expire_clock := 1 }] : List RVal).length + 1)
              { state := 0, expire_clock := 0 }
        ∧ nthD (modifyAt (RewardCache.appendRef (RewardCache.appendRef
            [{ state := 5, expire_clock := 1 }] [] 0).1 [] 0).1
            ([{ state := 5, expire_clock := 1 }] : List RVal).length f) 0
            { state := 0, expire_clock := 0 }
          = nthD (RewardCache.appendRef (RewardCache.appendRef
              [{ state := 5, expire_clock := 1 }] [] 0).1 [] 0).1 0
              { state := 0, expire_clock := 0 }) :=
  ⟨by norm_num,
   c7_copies_made_at_append [{ state := 5, expire_clock := 1 }] [] [] 0
     (by norm_num)⟩

/-- C9 (failing input): an agent whose `dt = 2` added to an environment with
`dt = 1` is enlisted without any error: the guard tests the truthiness of the
whole list comprehension `[agent.dt == self.dt for agent in agents]`, which
is truthy for any non-empty agent list, so the mismatch branch is
unreachable. -/
theorem c9_dt_mismatch_silently_accepted :
    add_agents 1 [] [2] = .ok [2] ∧ (2 : ℚ) ≠ 1 :=
  ⟨rfl, by norm_num⟩

theorem nthD_map {α β : Type} (f : α → β) (l : List α) (i : ℕ) (d : α) :
    nthD (l.map f) i (f d) = f (nthD l i d) := by
  rw [nthD_def, nthD_def, List.getElem?_map]
  cases l[i]? <;> rfl

theorem nthD_modifyAt_self {α : Type} (l : List α) (n : ℕ) (f : α → α) (d : α)
    (h : n < l.length) : nthD (modifyAt l n f) n d = f (nthD l n d) := by
  rw [nthD_def, nthD_def, getElem?_modifyAt]
  simp [List.getElem?_eq_getElem h]

theorem get_total_append (c : List Reward) (r : Reward) :
    RewardCache.get_total (c ++ [r]) = RewardCache.get_total c + r.state := by
  simp [RewardCache.get_total]

theorem npWhereFrom_lt (bs : List Bool) : ∀ (i j : ℕ),
    j ∈ npWhereFrom i bs → j < i + bs.length := by
  induction bs with
  | nil =>
      intro i j hj
      simp [npWhereFrom] at hj
  | cons b bs ih =>
      intro i j hj
      simp only [List.length_cons]
      cases b
      · simp [npWhereFrom] at hj
        have := ih (i + 1) j hj
        omega
      · simp [npWhereFrom] at hj
        rcases hj with h | h
        · omega
        · have := ih (i + 1) j h
          omega

theorem npWhere_lt (bs : List Bool) (j : ℕ) (h : j ∈ npWhere bs) :
    j < bs.length := by
  have := npWhereFrom_lt bs 0 j h
  omega

theorem check_sat_lt (dist : ℚ → ℚ → ℚ) (g : SpatialGoal) (agents : List ℚ)
    (j : ℕ) (h : j ∈ (SpatialGoal.check dist g agents).2) :
    j < agents.length := by
  have h' : j ∈ npWhere (agents.map
      (fun pos => if dist pos g.goal_pos < g.radius then true else false)) := h
  have := npWhere_lt _ j h'
  simpa using this

theorem checkAndRemove_bound (dist : ℚ → ℚ → ℚ) (agents : List ℚ)
    (goals : List SpatialGoal) :
    ∀ p ∈ (checkAndRemoveSatisfied dist agents goals).1, p.2 < agents.length := by
  intro p hp
  simp only [checkAndRemoveSatisfied] at hp
  rw [List.mem_flatMap] at hp
  obtain ⟨q, hq, hpq⟩ := hp
  rw [List.mem_map] at hq
  obtain ⟨g, hg, rfl⟩ := hq
  rw [List.mem_map] at hpq
  obtain ⟨j, hj, rfl⟩ := hpq
  exact check_sat_lt dist g agents j hj

theorem depositAll_total : ∀ (deps : List (Reward × ℕ))
    (cs : List (List Reward)), (∀ p ∈ deps, p.2 < cs.length) →
    ∀ i, i < cs.length →
    RewardCache.get_total (nthD (depositAll deps cs) i [])
      = RewardCache.get_total (nthD cs i []) + depositedSum deps i := by
  intro deps
  induction deps with
  | nil =>
      intro cs h i hi
      simp [depositAll, depositedSum]
  | cons p rest ih =>
      intro cs h i hi
      obtain ⟨r, a⟩ := p
      have ha : a < cs.length := h (r, a) (List.mem_cons_self _ _)
      have hlen := length_modifyAt cs a (fun c => c ++ [r])
      have hrest : ∀ q ∈ rest,
          q.2 < (modifyAt cs a (fun c => c ++ [r])).length := by
        rw [hlen]
        intro q hq
        exact h q (List.mem_cons_of_mem _ hq)
      have hi' : i < (modifyAt cs a (fun c => c ++ [r])).length := by
        rw [hlen]
        exact hi
      rw [show depositAll ((r, a) :: rest) cs
            = depositAll rest (modifyAt cs a (fun c => c ++ [r])) from rfl]
      rw [ih (modifyAt cs a (fun c => c ++ [r])) hrest i hi']
      by_cases hia : i = a
      · subst hia
        rw [nthD_modifyAt_self _ _ _ _ ha, get_total_append]
        simp [depositedSum]
        ring
      · have hai : a ≠ i := fun hh => hia hh.symm
        rw [nthD_modifyAt_ne _ _ _ _ _ hia]
        simp [depositedSum, hai]

theorem reset_base_caches (e : SGEnv) :
    (SGEnv.reset_base e).reward_caches = e.reward_caches := by
  by_cases h : e.episodes_start.isEmpty <;>
    simp [SGEnv.reset_base, SGEnv.write_end_episode, SGEnv.write_start_episode, h]

theorem resetAuto_caches (e : SGEnv) (p : List SpatialGoal) :
    (SGEnv.resetAuto e p).reward_caches = e.reward_caches := by
  simp [SGEnv.resetAuto, reset_base_caches]

theorem update_env_caches (dist : ℚ → ℚ → ℚ) (proposed : List SpatialGoal)
    (e : SGEnv) :
    (SGEnv.update_env dist proposed e).reward_caches
      = depositAll (checkAndRemoveSatisfied dist e.agents e.goal_cache).1
          e.reward_caches := by
  simp only [SGEnv.update_env, SGEnv.is_terminal_state]
  split
  · rw [resetAuto_caches]
  · rfl

/-- C6: within one `step(actions)` the tick order is actions → aging →
resolution/deposit → termination: the reported per-agent rewards are the
totals of the *aged* pre-existing caches with this tick's deposits appended
un-aged — each agent's reported total equals the total of its aged cache plus
the full (not-yet-decayed) template states of the rewards it earned this
tick.  (Deposited rewards are first aged by the next tick's sweep.) -/
theorem c6_step_orders_aging_before_deposit (agentUpd : ℚ → ℚ → ℚ → ℚ)
    (dist : ℚ → ℚ → ℚ) (e : SGEnv) (actions : List ℚ)
    (proposed : List SpatialGoal)
    (hlen : e.reward_caches.length = e.agents.length)
    (hact : actions.length = e.agents.length) :
    (SGEnv.step agentUpd dist e actions proposed).reward
      = (depositAll (stepDeposits agentUpd dist e actions) (agedCaches e)).map
          RewardCache.get_total
    ∧ ∀ i, i < e.agents.length →
        nthD ((SGEnv.step agentUpd dist e actions proposed).reward) i 0
          = RewardCache.get_total (nthD (agedCaches e) i [])
            + depositedSum (stepDeposits agentUpd dist e actions) i := by
  have h1 : (SGEnv.step agentUpd dist e actions proposed).reward
      = (depositAll (stepDeposits agentUpd dist e actions) (agedCaches e)).map
          RewardCache.get_total := by
    simp only [SGEnv.step]
    rw [update_env_caches]
    rfl
  refine ⟨h1, ?_⟩
  intro i hi
  rw [h1]
  have hANum : (postActionAgents agentUpd e actions).length = e.agents.length := by
    simp [postActionAgents, hact]
  have hAged : (agedCaches e).length = e.agents.length := by
    simp [agedCaches, hlen]
  have hdep : ∀ p ∈ stepDeposits agentUpd dist e actions,
      p.2 < (agedCaches e).length := by
    intro p hp
    rw [hAged, ← hANum]
    exact checkAndRemove_bound dist (postActionAgents agentUpd e actions)
      e.goal_cache p hp
  have h0 : RewardCache.get_total ([] : List Reward) = 0 := rfl
  rw [← h0, nthD_map, depositAll_total _ _ hdep i (by rw [hAged]; exact hi)]

/-- C6 witness: the ordering theorem applied to a one-agent environment that
stands on its single goal while holding a live reward of state 2; the
reported total is the aged old reward plus the un-aged template. -/
theorem c6_step_orders_witness :
    (e6.reward_caches.length = e6.agents.length
      ∧ ([0] : List ℚ).length = e6.agents.length)
    ∧ ((SGEnv.step agentUpdDrift distAbs e6 [0] [gOrigin]).reward
        = (depositAll (stepDeposits agentUpdDrift distAbs e6 [0])
            (agedCaches e6)).map RewardCache.get_total
      ∧ ∀ i, i < e6.agents.length →
          nthD ((SGEnv.step agentUpdDrift distAbs e6 [0] [gOrigin]).reward) i 0
            = RewardCache.get_total (nthD (agedCaches e6) i [])
              + depositedSum (stepDeposits agentUpdDrift distAbs e6 [0]) i) :=
  ⟨⟨rfl, rfl⟩,
   c6_step_orders_aging_before_deposit agentUpdDrift distAbs e6 [0] [gOrigin]
     rfl rfl⟩

/-- C8 (failing input): `reset(goal_locations=[0])` where `0` is the position
of the registered candidate `gOrigin` (second conjunct) nonetheless raises
`ValueError`: the lookup runs against the goal cache that `reset` itself just
cleared, not against the registered candidates. -/
theorem c8_reset_goal_locations_always_fails :
    SGEnv.reset e8 [] (some [0]) none = .error .valueError
    ∧ GoalCache.find e8.possible_goals 0 = some gOrigin := by
  constructor
  · rfl
  · norm_num [GoalCache.find, e8, gOrigin, List.find?]

end TaskEnv
